import Mathlib

/-!
Shallow embedding of the generation handlers of the audic-musicgen
repository (`musicgen_app.py`, `modal_app.py`).

Python dictionaries are modelled as association lists over a `Value`
type; every external call (model load, melody read, generation,
`audio_write`, file re-read, S3 upload, timestamp) is an input recorded
in an `Oracle`, whose `Except` outcomes stand for the call either
returning or raising.  Each handler is embedded twice over: a `...Run`
function returning `Except String ResultDict` (a `.error` is an
exception escaping the `try` body) together with the trace of external
calls it made, and the handler itself, which applies the outermost
`except Exception` clause of the Python code.
-/

/-- A Python dict value as used by the handlers' result payloads. -/
inductive Value where
  | str (s : String)
  | int (n : Int)
  | bool (b : Bool)
  | none
deriving DecidableEq, Repr

/-- A Python dict, in the literal order the source writes its keys. -/
abbrev ResultDict := List (String × Value)

/-- Raw model output: `ndim == 1` (mono) or `ndim > 1` (channels × samples). -/
inductive RawAudio where
  | mono (samples : List ℚ)
  | multi (channels : List (List ℚ))
deriving DecidableEq, Repr

/-- Model of `numpy.mean(axis=0)` on a (channels × samples) array. -/
def meanAxis0 (channels : List (List ℚ)) : List ℚ :=
  channels.transpose.map (fun col => col.sum / (col.length : ℚ))

/-- The mono-conversion block of `musicgen_app.py` (lines 113–114 / 281–282):
`if audio_values.ndim > 1: audio_values = audio_values.mean(axis=0)`. -/
def toMono : RawAudio → RawAudio
  | .mono samples => .mono samples
  | .multi channels => .mono (meanAxis0 channels)

/-- A loaded model instance; only `sample_rate` is read by the handlers. -/
structure Model where
  sampleRate : Int
deriving DecidableEq, Repr

/-- External calls a handler can make, in invocation order; `audioWrite`
records the audio value handed to the external WAV encoder. -/
inductive Event where
  | loadModel
  | loadMelody
  | generate
  | audioWrite (audio : RawAudio)
  | fileRead
  | s3Upload
deriving DecidableEq, Repr

/-- Outcomes of the external calls for one invocation. -/
structure Oracle where
  loadModel : Except String Model
  melodyLoad : Except String Unit
  generate : Except String RawAudio
  audioWrite : Except String Unit
  fileRead : Except String (List Nat)
  s3Upload : Except String Unit
  timestamp : String

/-- Environment variables read by the handlers (`None` means unset). -/
structure Env where
  awsAccessKeyId : Option String
  awsSecretAccessKey : Option String
  s3BucketName : Option String

/-- Python truthiness of `os.getenv(var)`: set and non-empty. -/
def envVarSet : Option String → Bool
  | some s => s ≠ ""
  | none => false

/-- Model of `validate_environment()`: all three required variables are set. -/
def validateEnvironment (env : Env) : Bool :=
  envVarSet env.awsAccessKeyId && envVarSet env.awsSecretAccessKey &&
    envVarSet env.s3BucketName

/-- Whitespace characters removed by Python's `str.strip()`. -/
def isPySpace (c : Char) : Bool :=
  c = ' ' || c = '\t' || c = '\n' || c = '\r' || c = '\x0b' || c = '\x0c'

/-- Model of `str.strip()`: drop leading and trailing whitespace. -/
def pyStrip (s : String) : String :=
  String.mk (((s.toList.dropWhile isPySpace).reverse.dropWhile isPySpace).reverse)

/-- Python truthiness of an optional string argument (`None` and `""` are falsy). -/
def pyTruthy : Option String → Bool
  | some s => s ≠ ""
  | none => false

/-- Alphabet of `base64.b64encode`. -/
def base64Chars : List Char :=
  "ABCDEFGHIJKLMNOPQRSTUVWXYZabcdefghijklmnopqrstuvwxyz0123456789+/".toList

def b64Char (n : Nat) : Char := base64Chars.getD n 'A'

/-- Model of `base64.b64encode` on a byte list, with `=` padding. -/
def base64Encode : List Nat → String
  | [] => ""
  | [a] => String.mk [b64Char (a / 4), b64Char (a % 4 * 16), '=', '=']
  | [a, b] =>
      String.mk [b64Char (a / 4), b64Char (a % 4 * 16 + b / 16),
        b64Char (b % 16 * 4), '=']
  | a :: b :: c :: rest =>
      String.mk [b64Char (a / 4), b64Char (a % 4 * 16 + b / 16),
        b64Char (b % 16 * 4 + c / 64), b64Char (c % 64)] ++ base64Encode rest

/-- An error payload returned from inside the core handlers. -/
def errDict (e : String) : ResultDict := [("error", Value.str e)]

def validModels : List String := ["small", "medium", "large", "melody"]

def envErrMsg : String :=
  "Missing AWS credentials. Please run setup_modal_secrets.py or use Modal secrets"

def invalidModelMsg : String :=
  "Invalid model size. Must be one of: small, medium, large, melody"

def durationErrMsg : String := "Duration must be between 1 and 300 seconds"

def promptErrMsg : String := "Prompt cannot be empty"

/-- The `try` body of `generate_music` (musicgen_app.py lines 56–206):
result `.error e` means an exception reached the outermost handler.
The second component is the trace of external calls made. -/
def generateMusicRun (env : Env) (prompt : String) (duration : Int)
    (model_size : String) (dedup : Option String) (o : Oracle) :
    Except String ResultDict × List Event :=
  if ¬ validateEnvironment env then
    (.ok (errDict envErrMsg), [])
  else if model_size ∈ validModels then
    match o.loadModel with
    | .error e => (.ok (errDict ("Model loading failed: " ++ e)), [.loadModel])
    | .ok model =>
      if duration < 1 ∨ duration > 300 then
        (.ok (errDict durationErrMsg), [.loadModel])
      else if pyStrip prompt = "" then
        (.ok (errDict promptErrMsg), [.loadModel])
      else
        match o.generate with
        | .error e =>
            (.ok (errDict ("Music generation failed: " ++ e)),
              [.loadModel, .generate])
        | .ok raw =>
          let audio := toMono raw
          let filename :=
            if pyTruthy dedup then
              "musicgen_" ++ dedup.getD "" ++ "_" ++ o.timestamp
            else
              "generated_music_" ++ o.timestamp
          let wavFilename := filename ++ ".wav"
          match o.audioWrite with
          | .error e => (.error e, [.loadModel, .generate, .audioWrite audio])
          | .ok _ =>
            match o.fileRead with
            | .error e =>
                (.error e,
                  [.loadModel, .generate, .audioWrite audio, .fileRead])
            | .ok audioBytes =>
              let audioBase64 := base64Encode audioBytes
              let bucketName := env.s3BucketName.getD "audic-musicgen"
              let s3Key :=
                if pyTruthy dedup then
                  "musicgen/" ++ dedup.getD "" ++ "/" ++ wavFilename
                else
                  "audio/" ++ wavFilename
              match o.s3Upload with
              | .ok _ =>
                  let s3Uri := "s3://" ++ bucketName ++ "/" ++ s3Key
                  (.ok [("success", Value.bool true),
                    ("audio_base64", Value.str audioBase64),
                    ("sampling_rate", Value.int model.sampleRate),
                    ("duration", Value.int duration),
                    ("format", Value.str "wav"),
                    ("filename", Value.str wavFilename),
                    ("file_size_bytes", Value.int audioBytes.length),
                    ("s3_uri", Value.str s3Uri),
                    ("s3_bucket", Value.str bucketName),
                    ("s3_key", Value.str s3Key),
                    ("prompt_used", Value.str prompt),
                    ("model_size", Value.str model_size),
                    ("message_deduplication_id",
                      match dedup with
                      | some s => Value.str s
                      | none => Value.none)],
                    [.loadModel, .generate, .audioWrite audio, .fileRead,
                      .s3Upload])
              | .error _ =>
                  (.ok [("success", Value.bool true),
                    ("audio_base64", Value.str audioBase64),
                    ("sampling_rate", Value.int model.sampleRate),
                    ("duration", Value.int duration),
                    ("format", Value.str "wav"),
                    ("filename", Value.str wavFilename),
                    ("file_size_bytes", Value.int audioBytes.length),
                    ("prompt_used", Value.str prompt),
                    ("model_size", Value.str model_size),
                    ("message_deduplication_id",
                      match dedup with
                      | some s => Value.str s
                      | none => Value.none)],
                    [.loadModel, .generate, .audioWrite audio, .fileRead,
                      .s3Upload])
  else
    (.ok (errDict invalidModelMsg), [])

/-- Handler `generate_music` with its outermost `except Exception as e` clause. -/
def generate_music (env : Env) (prompt : String) (duration : Int)
    (model_size : String) (dedup : Option String) (o : Oracle) :
    ResultDict × List Event :=
  let r := generateMusicRun env prompt duration model_size dedup o
  (match r.1 with
   | .ok d => d
   | .error e => errDict e, r.2)

/-- The `try` body of `generate_sfx` (modal_app.py lines 54–170).  Note:
no model-size check, no deduplication token, and no mono conversion —
`audio_values.cpu()` is handed to `audio_write` as returned. -/
def generateSfxRun (env : Env) (prompt : String) (duration : Int)
    (o : Oracle) : Except String ResultDict × List Event :=
  if ¬ validateEnvironment env then
    (.ok (errDict envErrMsg), [])
  else
    match o.loadModel with
    | .error e => (.ok (errDict ("Model loading failed: " ++ e)), [.loadModel])
    | .ok model =>
      if duration < 1 ∨ duration > 300 then
        (.ok (errDict durationErrMsg), [.loadModel])
      else if pyStrip prompt = "" then
        (.ok (errDict promptErrMsg), [.loadModel])
      else
        match o.generate with
        | .error e =>
            (.ok (errDict ("Audio generation failed: " ++ e)),
              [.loadModel, .generate])
        | .ok raw =>
          let filename := "generated_audio_" ++ o.timestamp
          let wavFilename := filename ++ ".wav"
          match o.audioWrite with
          | .error e => (.error e, [.loadModel, .generate, .audioWrite raw])
          | .ok _ =>
            match o.fileRead with
            | .error e =>
                (.error e,
                  [.loadModel, .generate, .audioWrite raw, .fileRead])
            | .ok audioBytes =>
              let audioBase64 := base64Encode audioBytes
              let bucketName := env.s3BucketName.getD "audiogen-demo"
              let s3Key := "audio/" ++ wavFilename
              match o.s3Upload with
              | .ok _ =>
                  let s3Uri := "s3://" ++ bucketName ++ "/" ++ s3Key
                  (.ok [("success", Value.bool true),
                    ("audio_base64", Value.str audioBase64),
                    ("sampling_rate", Value.int model.sampleRate),
                    ("duration", Value.int duration),
                    ("format", Value.str "wav"),
                    ("filename", Value.str wavFilename),
                    ("file_size_bytes", Value.int audioBytes.length),
                    ("s3_uri", Value.str s3Uri),
                    ("s3_bucket", Value.str bucketName),
                    ("s3_key", Value.str s3Key),
                    ("prompt_used", Value.str prompt)],
                    [.loadModel, .generate, .audioWrite raw, .fileRead,
                      .s3Upload])
              | .error _ =>
                  (.ok [("success", Value.bool true),
                    ("audio_base64", Value.str audioBase64),
                    ("sampling_rate", Value.int model.sampleRate),
                    ("duration", Value.int duration),
                    ("format", Value.str "wav"),
                    ("filename", Value.str wavFilename),
                    ("file_size_bytes", Value.int audioBytes.length),
                    ("prompt_used", Value.str prompt)],
                    [.loadModel, .generate, .audioWrite raw, .fileRead,
                      .s3Upload])

/-- Handler `generate_sfx` with its outermost `except Exception as e` clause. -/
def generate_sfx (env : Env) (prompt : String) (duration : Int)
    (o : Oracle) : ResultDict × List Event :=
  let r := generateSfxRun env prompt duration o
  (match r.1 with
   | .ok d => d
   | .error e => errDict e, r.2)

/-- The `try` body of `generate_music_with_melody`
(musicgen_app.py lines 223–376). -/
def generateMelodyRun (env : Env) (prompt : String) (melody_path : String)
    (duration : Int) (dedup : Option String) (o : Oracle) :
    Except String ResultDict × List Event :=
  if ¬ validateEnvironment env then
    (.ok (errDict envErrMsg), [])
  else
    match o.loadModel with
    | .error e => (.ok (errDict ("Model loading failed: " ++ e)), [.loadModel])
    | .ok model =>
      if duration < 1 ∨ duration > 300 then
        (.ok (errDict durationErrMsg), [.loadModel])
      else if pyStrip prompt = "" then
        (.ok (errDict promptErrMsg), [.loadModel])
      else
        match o.melodyLoad with
        | .error e =>
            (.ok (errDict ("Melody loading failed: " ++ e)),
              [.loadModel, .loadMelody])
        | .ok _ =>
          match o.generate with
          | .error e =>
              (.ok (errDict ("Music generation failed: " ++ e)),
                [.loadModel, .loadMelody, .generate])
          | .ok raw =>
            let audio := toMono raw
            let filename :=
              if pyTruthy dedup then
                "musicgen_melody_" ++ dedup.getD "" ++ "_" ++ o.timestamp
              else
                "generated_music_melody_" ++ o.timestamp
            let wavFilename := filename ++ ".wav"
            match o.audioWrite with
            | .error e =>
                (.error e,
                  [.loadModel, .loadMelody, .generate, .audioWrite audio])
            | .ok _ =>
              match o.fileRead with
              | .error e =>
                  (.error e,
                    [.loadModel, .loadMelody, .generate, .audioWrite audio,
                      .fileRead])
              | .ok audioBytes =>
                let audioBase64 := base64Encode audioBytes
                let bucketName := env.s3BucketName.getD "audic-musicgen"
                let s3Key :=
                  if pyTruthy dedup then
                    "musicgen/" ++ dedup.getD "" ++ "/" ++ wavFilename
                  else
                    "audio/" ++ wavFilename
                match o.s3Upload with
                | .ok _ =>
                    let s3Uri := "s3://" ++ bucketName ++ "/" ++ s3Key
                    (.ok [("success", Value.bool true),
                      ("audio_base64", Value.str audioBase64),
                      ("sampling_rate", Value.int model.sampleRate),
                      ("duration", Value.int duration),
                      ("format", Value.str "wav"),
                      ("filename", Value.str wavFilename),
                      ("file_size_bytes", Value.int audioBytes.length),
                      ("s3_uri", Value.str s3Uri),
                      ("s3_bucket", Value.str bucketName),
                      ("s3_key", Value.str s3Key),
                      ("prompt_used", Value.str prompt),
                      ("model_size", Value.str "melody"),
                      ("melody_path", Value.str melody_path),
                      ("message_deduplication_id",
                        match dedup with
                        | some s => Value.str s
                        | none => Value.none)],
                      [.loadModel, .loadMelody, .generate, .audioWrite audio,
                        .fileRead, .s3Upload])
                | .error _ =>
                    (.ok [("success", Value.bool true),
                      ("audio_base64", Value.str audioBase64),
                      ("sampling_rate", Value.int model.sampleRate),
                      ("duration", Value.int duration),
                      ("format", Value.str "wav"),
                      ("filename", Value.str wavFilename),
                      ("file_size_bytes", Value.int audioBytes.length),
                      ("prompt_used", Value.str prompt),
                      ("model_size", Value.str "melody"),
                      ("melody_path", Value.str melody_path),
                      ("message_deduplication_id",
                        match dedup with
                        | some s => Value.str s
                        | none => Value.none)],
                      [.loadModel, .loadMelody, .generate, .audioWrite audio,
                        .fileRead, .s3Upload])

/-- Handler `generate_music_with_melody` with its outermost `except` clause. -/
def generate_music_with_melody (env : Env) (prompt : String)
    (melody_path : String) (duration : Int) (dedup : Option String)
    (o : Oracle) : ResultDict × List Event :=
  let r := generateMelodyRun env prompt melody_path duration dedup o
  (match r.1 with
   | .ok d => d
   | .error e => errDict e, r.2)

/-- An HTTP request body: `none` in a field means the key is absent. -/
structure Request where
  prompt : Option String
  duration : Option Int
  model_size : Option String
  message_deduplication_id : Option String

/-- Endpoint `generate_music_endpoint` (musicgen_app.py lines 383–412).  `remote`
is the outcome of the `.remote(...)` dispatch itself: `.error` stands
for the remote invocation raising, caught by the endpoint's `except`.
The Boolean records whether `generate_music` was invoked. -/
def generate_music_endpoint (env : Env) (req : Request)
    (remote : Except String Unit) (o : Oracle) : ResultDict × Bool :=
  if ¬ pyTruthy req.prompt then
    ([("success", Value.bool false), ("error", Value.str "prompt is required")],
      false)
  else
    match remote with
    | .error e =>
        ([("success", Value.bool false), ("error", Value.str e)], true)
    | .ok _ =>
        ((generate_music env (req.prompt.getD "") (req.duration.getD 30)
          (req.model_size.getD "large") req.message_deduplication_id o).1,
          true)

/-- A success-shaped payload: tagged `"success": True`. -/
def successShaped (r : ResultDict) : Prop :=
  r.lookup "success" = some (Value.bool true)

/-- An error-shaped payload of the core handlers: a single `"error"` key. -/
def errorShaped (r : ResultDict) : Prop :=
  ∃ e, r = [("error", Value.str e)]

/-- Exact shape of every core-handler result: either a dict holding
only an `"error"` key, or a success dict with `"success": True` and no
`"error"` key. -/
def coreShape (r : ResultDict) : Prop :=
  (∃ e, r = [("error", Value.str e)]) ∨
  (r.lookup "success" = some (Value.bool true) ∧ r.lookup "error" = none)

/-- A fully-populated environment, for concrete evaluations. -/
def envOk : Env := ⟨some "AKIA", some "secretkey", some "bucket"⟩

/-- An oracle on which every external call succeeds. -/
def oracleOk : Oracle :=
  ⟨.ok ⟨32000⟩, .ok (), .ok (.mono [1]), .ok (), .ok [82, 73, 70, 70], .ok (),
    "20240101_000000"⟩

/-- The success payload shape after a failed upload: success-tagged,
inline audio, filename and byte length present, storage fields absent. -/
def uploadFailedSuccess (r : ResultDict) (bytes : List Nat) : Prop :=
  r.lookup "success" = some (Value.bool true) ∧
  r.lookup "audio_base64" = some (Value.str (base64Encode bytes)) ∧
  r.lookup "file_size_bytes" = some (Value.int bytes.length) ∧
  (r.lookup "filename").isSome = true ∧
  r.lookup "s3_uri" = none ∧
  r.lookup "s3_bucket" = none ∧
  r.lookup "s3_key" = none

theorem musicRun_shape (env : Env) (prompt : String) (duration : Int)
    (model_size : String) (dedup : Option String) (o : Oracle)
    (d : ResultDict)
    (h : (generateMusicRun env prompt duration model_size dedup o).1 = .ok d) :
    coreShape d := by
  unfold generateMusicRun at h
  repeat' split at h
  all_goals dsimp only at h
  all_goals try exact (Except.noConfusion h)
  all_goals injection h with h
  all_goals subst h
  all_goals first
    | exact Or.inl ⟨_, rfl⟩
    | exact Or.inr ⟨rfl, rfl⟩

theorem sfxRun_shape (env : Env) (prompt : String) (duration : Int)
    (o : Oracle) (d : ResultDict)
    (h : (generateSfxRun env prompt duration o).1 = .ok d) :
    coreShape d := by
  unfold generateSfxRun at h
  repeat' split at h
  all_goals dsimp only at h
  all_goals try exact (Except.noConfusion h)
  all_goals injection h with h
  all_goals subst h
  all_goals first
    | exact Or.inl ⟨_, rfl⟩
    | exact Or.inr ⟨rfl, rfl⟩

theorem melodyRun_shape (env : Env) (prompt : String) (melody_path : String)
    (duration : Int) (dedup : Option String) (o : Oracle) (d : ResultDict)
    (h : (generateMelodyRun env prompt melody_path duration dedup o).1 = .ok d) :
    coreShape d := by
  unfold generateMelodyRun at h
  repeat' split at h
  all_goals dsimp only at h
  all_goals try exact (Except.noConfusion h)
  all_goals injection h with h
  all_goals subst h
  all_goals first
    | exact Or.inl ⟨_, rfl⟩
    | exact Or.inr ⟨rfl, rfl⟩

/-- Every `generate_music` result has the core shape. -/
theorem music_coreShape (env : Env) (prompt : String) (duration : Int)
    (model_size : String) (dedup : Option String) (o : Oracle) :
    coreShape (generate_music env prompt duration model_size dedup o).1 := by
  cases hr : (generateMusicRun env prompt duration model_size dedup o).1 with
  | ok d =>
      have hs := musicRun_shape env prompt duration model_size dedup o d hr
      simpa [generate_music, hr] using hs
  | error e =>
      exact Or.inl ⟨e, by simp [generate_music, hr, errDict]⟩

/-- Every `generate_sfx` result has the core shape. -/
theorem sfx_coreShape (env : Env) (prompt : String) (duration : Int)
    (o : Oracle) : coreShape (generate_sfx env prompt duration o).1 := by
  cases hr : (generateSfxRun env prompt duration o).1 with
  | ok d =>
      have hs := sfxRun_shape env prompt duration o d hr
      simpa [generate_sfx, hr] using hs
  | error e =>
      exact Or.inl ⟨e, by simp [generate_sfx, hr, errDict]⟩

/-- Every `generate_music_with_melody` result has the core shape. -/
theorem melody_coreShape (env : Env) (prompt melody_path : String)
    (duration : Int) (dedup : Option String) (o : Oracle) :
    coreShape (generate_music_with_melody env prompt melody_path duration
      dedup o).1 := by
  cases hr : (generateMelodyRun env prompt melody_path duration dedup o).1 with
  | ok d =>
      have hs := melodyRun_shape env prompt melody_path duration dedup o d hr
      simpa [generate_music_with_melody, hr] using hs
  | error e =>
      exact Or.inl ⟨e, by simp [generate_music_with_melody, hr, errDict]⟩

/-- Claim C1: for every input and every outcome of the external calls,
each of `generate_sfx`, `generate_music` and `generate_music_with_melody`
returns a structured dictionary — success-shaped or error-shaped — and
never propagates an exception past the function boundary (each handler
is a total function into `ResultDict`; a `.error` of the `try` body is
converted to an error payload by the outermost handler). -/
theorem c1_structured_result_always (env : Env) (prompt melody_path : String)
    (duration : Int) (model_size : String) (dedup : Option String)
    (o : Oracle) :
    (errorShaped (generate_music env prompt duration model_size dedup o).1 ∨
      successShaped (generate_music env prompt duration model_size dedup o).1) ∧
    (errorShaped (generate_sfx env prompt duration o).1 ∨
      successShaped (generate_sfx env prompt duration o).1) ∧
    (errorShaped
        (generate_music_with_melody env prompt melody_path duration dedup o).1 ∨
      successShaped
        (generate_music_with_melody env prompt melody_path duration dedup o).1) := by
  exact ⟨(music_coreShape env prompt duration model_size dedup o).imp
      (fun h => h) And.left,
    (sfx_coreShape env prompt duration o).imp (fun h => h) And.left,
    (melody_coreShape env prompt melody_path duration dedup o).imp
      (fun h => h) And.left⟩

/-- Claim C2: if every stage up to and including encoding succeeds but
the upload raises, `generate_music` and `generate_sfx` still return a
success-tagged result with the inline audio bytes, filename and byte
length, and without the storage URI, bucket and key fields. -/
theorem c2_upload_failure_nonfatal (env : Env) (prompt : String)
    (duration : Int) (model_size : String) (dedup : Option String)
    (o : Oracle) (m : Model) (raw : RawAudio) (bytes : List Nat)
    (err : String)
    (henv : validateEnvironment env = true)
    (hm : model_size ∈ validModels)
    (hload : o.loadModel = .ok m)
    (hd1 : 1 ≤ duration) (hd2 : duration ≤ 300)
    (hp : pyStrip prompt ≠ "")
    (hgen : o.generate = .ok raw)
    (hw : o.audioWrite = .ok ())
    (hread : o.fileRead = .ok bytes)
    (hs3 : o.s3Upload = .error err) :
    uploadFailedSuccess (generate_music env prompt duration model_size dedup o).1
      bytes ∧
    uploadFailedSuccess (generate_sfx env prompt duration o).1 bytes := by
  have hd : ¬ (duration < 1 ∨ duration > 300) := by omega
  constructor
  · unfold generate_music generateMusicRun
    simp only [henv, hm, hload, hgen, hw, hread, hs3, hd, hp,
      Bool.not_eq_true, not_true_eq_false, if_true, if_false, ite_true,
      ite_false, not_false_eq_true, if_neg, reduceIte]
    split
    all_goals exact ⟨rfl, rfl, rfl, rfl, rfl, rfl, rfl⟩
  · unfold generate_sfx generateSfxRun
    simp only [henv, hload, hgen, hw, hread, hs3, hd, hp,
      Bool.not_eq_true, not_true_eq_false, if_true, if_false, ite_true,
      ite_false, not_false_eq_true, if_neg, reduceIte]
    exact ⟨rfl, rfl, rfl, rfl, rfl, rfl, rfl⟩

/-- An oracle on which every external call succeeds except the upload. -/
def oracleS3Fail : Oracle := { oracleOk with s3Upload := .error "boom" }

/-- Witness for C2 at a concrete input. -/
theorem c2_upload_failure_nonfatal_witness :
    uploadFailedSuccess
      (generate_music envOk "hello" 5 "small" none oracleS3Fail).1
      [82, 73, 70, 70] ∧
    uploadFailedSuccess (generate_sfx envOk "hello" 5 oracleS3Fail).1
      [82, 73, 70, 70] :=
  c2_upload_failure_nonfatal envOk "hello" 5 "small" none oracleS3Fail
    ⟨32000⟩ (.mono [1]) [82, 73, 70, 70] "boom" rfl (by decide) rfl
    (by decide) (by decide) (by decide) rfl rfl rfl rfl

/-- Counterexample to claim C3 as stated: at duration 0 (out of range)
the handler rejects with the duration error, yet the model-load
operation HAS been invoked — model load precedes the duration/prompt
validation in the code. -/
theorem c3_counterexample_load_before_validate :
    (generate_music envOk "hello" 0 "large" none oracleOk).1 =
      errDict durationErrMsg ∧
    Event.loadModel ∈ (generate_music envOk "hello" 0 "large" none oracleOk).2 := by
  constructor
  · rfl
  · decide

/-- With credentials, a valid variant and a successful model load, an
invalid duration or empty prompt makes the `generate_music` body return
a validation error with trace exactly `[loadModel]`. -/
theorem musicRun_reject (env : Env) (prompt : String) (duration : Int)
    (model_size : String) (dedup : Option String) (o : Oracle) (m : Model)
    (henv : validateEnvironment env = true)
    (hm : model_size ∈ validModels)
    (hload : o.loadModel = .ok m)
    (hbad : duration < 1 ∨ duration > 300 ∨ pyStrip prompt = "") :
    generateMusicRun env prompt duration model_size dedup o =
      (.ok (errDict durationErrMsg), [Event.loadModel]) ∨
    generateMusicRun env prompt duration model_size dedup o =
      (.ok (errDict promptErrMsg), [Event.loadModel]) := by
  unfold generateMusicRun
  simp only [henv, hm, hload, Bool.not_eq_true, not_true_eq_false, reduceIte]
  split
  · exact Or.inl rfl
  · split
    · exact Or.inr rfl
    · exfalso
      rename_i h1 h2
      rcases hbad with hd | hd | hp
      · exact h1 (Or.inl hd)
      · exact h1 (Or.inr hd)
      · exact h2 hp

/-- Same rejection fact for the `generate_sfx` body. -/
theorem sfxRun_reject (env : Env) (prompt : String) (duration : Int)
    (o : Oracle) (m : Model)
    (henv : validateEnvironment env = true)
    (hload : o.loadModel = .ok m)
    (hbad : duration < 1 ∨ duration > 300 ∨ pyStrip prompt = "") :
    generateSfxRun env prompt duration o =
      (.ok (errDict durationErrMsg), [Event.loadModel]) ∨
    generateSfxRun env prompt duration o =
      (.ok (errDict promptErrMsg), [Event.loadModel]) := by
  unfold generateSfxRun
  simp only [henv, hload, Bool.not_eq_true, not_true_eq_false, reduceIte]
  split
  · exact Or.inl rfl
  · split
    · exact Or.inr rfl
    · exfalso
      rename_i h1 h2
      rcases hbad with hd | hd | hp
      · exact h1 (Or.inl hd)
      · exact h1 (Or.inr hd)
      · exact h2 hp

/-- Claim C3 (amended): with credentials present, a valid model variant
and a successful model load, a request with out-of-range duration or
empty (after stripping) prompt is rejected with a validation error
before the generation operation is invoked — but only after the model
load: the trace of external calls is exactly `[loadModel]`. -/
theorem c3_amended_validate_after_load_before_generate (env : Env)
    (prompt : String) (duration : Int) (model_size : String)
    (dedup : Option String) (o : Oracle) (m : Model)
    (henv : validateEnvironment env = true)
    (hm : model_size ∈ validModels)
    (hload : o.loadModel = .ok m)
    (hbad : duration < 1 ∨ duration > 300 ∨ pyStrip prompt = "") :
    (errorShaped (generate_music env prompt duration model_size dedup o).1 ∧
      (generate_music env prompt duration model_size dedup o).2 =
        [Event.loadModel]) ∧
    (errorShaped (generate_sfx env prompt duration o).1 ∧
      (generate_sfx env prompt duration o).2 = [Event.loadModel]) := by
  constructor
  · rcases musicRun_reject env prompt duration model_size dedup o m henv hm
      hload hbad with hr | hr
    · exact ⟨⟨durationErrMsg, by simp [generate_music, hr, errDict]⟩,
        by simp [generate_music, hr, errDict]⟩
    · exact ⟨⟨promptErrMsg, by simp [generate_music, hr, errDict]⟩,
        by simp [generate_music, hr, errDict]⟩
  · rcases sfxRun_reject env prompt duration o m henv hload hbad with hr | hr
    · exact ⟨⟨durationErrMsg, by simp [generate_sfx, hr, errDict]⟩,
        by simp [generate_sfx, hr, errDict]⟩
    · exact ⟨⟨promptErrMsg, by simp [generate_sfx, hr, errDict]⟩,
        by simp [generate_sfx, hr, errDict]⟩

/-- Witness for the amended C3 at a concrete input. -/
theorem c3_amended_witness :
    (errorShaped (generate_music envOk "hello" 0 "large" none oracleOk).1 ∧
      (generate_music envOk "hello" 0 "large" none oracleOk).2 =
        [Event.loadModel]) ∧
    (errorShaped (generate_sfx envOk "hello" 0 oracleOk).1 ∧
      (generate_sfx envOk "hello" 0 oracleOk).2 = [Event.loadModel]) :=
  c3_amended_validate_after_load_before_generate envOk "hello" 0 "large"
    none oracleOk ⟨32000⟩ rfl (by decide) rfl (Or.inl (by decide))

/-- The first `/`-separated segment of a storage key. -/
def firstSegment (s : String) : String :=
  String.mk (s.toList.takeWhile (fun c => c ≠ '/'))

/-- Counterexample to claim C4 as stated: with deduplication token
"abc123" the key's family prefix is `musicgen`, but with no token the
key's family prefix is `audio` — NOT the same family prefix. -/
theorem c4_counterexample_prefixes_differ :
    (generate_music envOk "hello" 5 "large" (some "abc123") oracleOk).1.lookup
        "s3_key" =
      some (Value.str "musicgen/abc123/musicgen_abc123_20240101_000000.wav") ∧
    (generate_music envOk "hello" 5 "large" none oracleOk).1.lookup "s3_key" =
      some (Value.str "audio/generated_music_20240101_000000.wav") ∧
    firstSegment "musicgen/abc123/musicgen_abc123_20240101_000000.wav" =
      "musicgen" ∧
    firstSegment "audio/generated_music_20240101_000000.wav" = "audio" ∧
    ("musicgen" : String) ≠ "audio" := by
  refine ⟨rfl, rfl, by decide, by decide, by decide⟩

/-- Claim C4 (amended): when a deduplication token is supplied the
storage key is `musicgen/{token}/{filename}.wav` (token as a path
segment); when it is not, the key is `audio/{filename}.wav` — a
DIFFERENT family prefix (`musicgen` with token, `audio` without); in
both cases the returned URI is exactly `s3://{bucket}/{key}`.  Holds
for `generate_music` and `generate_music_with_melody`. -/
theorem c4_amended_storage_key_pattern (env : Env)
    (prompt melody_path : String) (duration : Int) (model_size : String)
    (dedup : Option String) (o : Oracle) (m : Model) (raw : RawAudio)
    (bytes : List Nat)
    (henv : validateEnvironment env = true)
    (hm : model_size ∈ validModels)
    (hload : o.loadModel = .ok m)
    (hd1 : 1 ≤ duration) (hd2 : duration ≤ 300)
    (hp : pyStrip prompt ≠ "")
    (hmel : o.melodyLoad = .ok ())
    (hgen : o.generate = .ok raw)
    (hw : o.audioWrite = .ok ())
    (hread : o.fileRead = .ok bytes)
    (hs3 : o.s3Upload = .ok ()) :
    (pyTruthy dedup = true →
      ((generate_music env prompt duration model_size dedup o).1.lookup
          "s3_key" =
        some (Value.str ("musicgen/" ++ dedup.getD "" ++ "/" ++
          ("musicgen_" ++ dedup.getD "" ++ "_" ++ o.timestamp ++ ".wav"))) ∧
       (generate_music env prompt duration model_size dedup o).1.lookup
          "s3_uri" =
        some (Value.str ("s3://" ++ env.s3BucketName.getD "audic-musicgen" ++
          "/" ++ ("musicgen/" ++ dedup.getD "" ++ "/" ++
            ("musicgen_" ++ dedup.getD "" ++ "_" ++ o.timestamp ++ ".wav")))) ∧
       (generate_music_with_melody env prompt melody_path duration dedup
          o).1.lookup "s3_key" =
        some (Value.str ("musicgen/" ++ dedup.getD "" ++ "/" ++
          ("musicgen_melody_" ++ dedup.getD "" ++ "_" ++ o.timestamp ++
            ".wav"))))) ∧
    (pyTruthy dedup = false →
      ((generate_music env prompt duration model_size dedup o).1.lookup
          "s3_key" =
        some (Value.str ("audio/" ++
          ("generated_music_" ++ o.timestamp ++ ".wav"))) ∧
       (generate_music env prompt duration model_size dedup o).1.lookup
          "s3_uri" =
        some (Value.str ("s3://" ++ env.s3BucketName.getD "audic-musicgen" ++
          "/" ++ ("audio/" ++ ("generated_music_" ++ o.timestamp ++
            ".wav")))) ∧
       (generate_music_with_melody env prompt melody_path duration dedup
          o).1.lookup "s3_key" =
        some (Value.str ("audio/" ++
          ("generated_music_melody_" ++ o.timestamp ++ ".wav"))))) := by
  have hd : ¬ (duration < 1 ∨ duration > 300) := by omega
  constructor
  · intro hdt
    refine ⟨?_, ?_, ?_⟩
    · unfold generate_music generateMusicRun
      simp only [henv, hm, hload, hgen, hw, hread, hs3, hd, hp, hdt,
        Bool.not_eq_true, not_true_eq_false, not_false_eq_true, reduceIte]
      rfl
    · unfold generate_music generateMusicRun
      simp only [henv, hm, hload, hgen, hw, hread, hs3, hd, hp, hdt,
        Bool.not_eq_true, not_true_eq_false, not_false_eq_true, reduceIte]
      rfl
    · unfold generate_music_with_melody generateMelodyRun
      simp only [henv, hload, hmel, hgen, hw, hread, hs3, hd, hp, hdt,
        Bool.not_eq_true, not_true_eq_false, not_false_eq_true, reduceIte]
      rfl
  · intro hdf
    refine ⟨?_, ?_, ?_⟩
    · unfold generate_music generateMusicRun
      simp only [henv, hm, hload, hgen, hw, hread, hs3, hd, hp, hdf,
        Bool.not_eq_true, not_true_eq_false, not_false_eq_true,
        Bool.false_eq_true, reduceIte]
      rfl
    · unfold generate_music generateMusicRun
      simp only [henv, hm, hload, hgen, hw, hread, hs3, hd, hp, hdf,
        Bool.not_eq_true, not_true_eq_false, not_false_eq_true,
        Bool.false_eq_true, reduceIte]
      rfl
    · unfold generate_music_with_melody generateMelodyRun
      simp only [henv, hload, hmel, hgen, hw, hread, hs3, hd, hp, hdf,
        Bool.not_eq_true, not_true_eq_false, not_false_eq_true,
        Bool.false_eq_true, reduceIte]
      rfl

/-- Witness for the amended C4 at concrete inputs, token and no-token. -/
theorem c4_amended_witness :
    ((generate_music envOk "hello" 5 "large" (some "abc123") oracleOk).1.lookup
        "s3_key" =
      some (Value.str "musicgen/abc123/musicgen_abc123_20240101_000000.wav")) ∧
    ((generate_music envOk "hello" 5 "large" none oracleOk).1.lookup "s3_key" =
      some (Value.str "audio/generated_music_20240101_000000.wav")) :=
  ⟨((c4_amended_storage_key_pattern envOk "hello" "m.wav" 5 "large"
      (some "abc123") oracleOk ⟨32000⟩ (.mono [1]) [82, 73, 70, 70] rfl
      (by decide) rfl (by decide) (by decide) (by decide) rfl rfl rfl rfl
      rfl).1 rfl).1,
   ((c4_amended_storage_key_pattern envOk "hello" "m.wav" 5 "large" none
      oracleOk ⟨32000⟩ (.mono [1]) [82, 73, 70, 70] rfl (by decide) rfl
      (by decide) (by decide) (by decide) rfl rfl rfl rfl rfl).2 rfl).1⟩

/-- Out-of-range duration yields exactly the duration-range error from
the `generate_music` body. -/
theorem musicRun_durReject (env : Env) (prompt : String) (duration : Int)
    (model_size : String) (dedup : Option String) (o : Oracle) (m : Model)
    (henv : validateEnvironment env = true)
    (hm : model_size ∈ validModels)
    (hload : o.loadModel = .ok m)
    (hdbad : duration < 1 ∨ duration > 300) :
    generateMusicRun env prompt duration model_size dedup o =
      (.ok (errDict durationErrMsg), [Event.loadModel]) := by
  unfold generateMusicRun
  simp only [henv, hm, hload, Bool.not_eq_true, not_true_eq_false, reduceIte]
  rw [if_pos hdbad]

/-- Out-of-range duration yields exactly the duration-range error from
the `generate_sfx` body. -/
theorem sfxRun_durReject (env : Env) (prompt : String) (duration : Int)
    (o : Oracle) (m : Model)
    (henv : validateEnvironment env = true)
    (hload : o.loadModel = .ok m)
    (hdbad : duration < 1 ∨ duration > 300) :
    generateSfxRun env prompt duration o =
      (.ok (errDict durationErrMsg), [Event.loadModel]) := by
  unfold generateSfxRun
  simp only [henv, hload, Bool.not_eq_true, not_true_eq_false, reduceIte]
  rw [if_pos hdbad]

/-- When validation passes, the `generate_music` body reaches the
generation stage: `generate` is in its trace. -/
theorem musicRun_accept_trace (env : Env) (prompt : String) (duration : Int)
    (model_size : String) (dedup : Option String) (o : Oracle) (m : Model)
    (henv : validateEnvironment env = true)
    (hm : model_size ∈ validModels)
    (hload : o.loadModel = .ok m)
    (hd1 : 1 ≤ duration) (hd2 : duration ≤ 300)
    (hp : pyStrip prompt ≠ "") :
    Event.generate ∈ (generateMusicRun env prompt duration model_size dedup o).2 := by
  have hd : ¬ (duration < 1 ∨ duration > 300) := by omega
  unfold generateMusicRun
  simp only [henv, hm, hload, hd, hp, Bool.not_eq_true, not_true_eq_false,
    not_false_eq_true, reduceIte]
  repeat' split
  all_goals simp

/-- When validation passes, the `generate_sfx` body reaches the
generation stage: `generate` is in its trace. -/
theorem sfxRun_accept_trace (env : Env) (prompt : String) (duration : Int)
    (o : Oracle) (m : Model)
    (henv : validateEnvironment env = true)
    (hload : o.loadModel = .ok m)
    (hd1 : 1 ≤ duration) (hd2 : duration ≤ 300)
    (hp : pyStrip prompt ≠ "") :
    Event.generate ∈ (generateSfxRun env prompt duration o).2 := by
  have hd : ¬ (duration < 1 ∨ duration > 300) := by omega
  unfold generateSfxRun
  simp only [henv, hload, hd, hp, Bool.not_eq_true, not_true_eq_false,
    not_false_eq_true, reduceIte]
  repeat' split
  all_goals simp

/-- Claim C5: with credentials, a valid variant and a loaded model,
validation accepts exactly the requests with 1 ≤ duration ≤ 300 and a
prompt non-empty after stripping: such requests reach the generation
stage; an out-of-range duration is rejected with the duration-range
message; an empty or whitespace-only prompt is rejected (with no
generation) whatever the duration.  Holds for both `generate_music`
and `generate_sfx`. -/
theorem c5_validation_boundaries (env : Env) (prompt : String)
    (duration : Int) (model_size : String) (dedup : Option String)
    (o : Oracle) (m : Model)
    (henv : validateEnvironment env = true)
    (hm : model_size ∈ validModels)
    (hload : o.loadModel = .ok m) :
    ((1 ≤ duration ∧ duration ≤ 300 ∧ pyStrip prompt ≠ "") →
      Event.generate ∈ (generate_music env prompt duration model_size dedup o).2 ∧
      Event.generate ∈ (generate_sfx env prompt duration o).2) ∧
    ((duration < 1 ∨ duration > 300) →
      (generate_music env prompt duration model_size dedup o).1 =
        errDict durationErrMsg ∧
      (generate_sfx env prompt duration o).1 = errDict durationErrMsg) ∧
    (pyStrip prompt = "" →
      (errorShaped (generate_music env prompt duration model_size dedup o).1 ∧
        Event.generate ∉ (generate_music env prompt duration model_size dedup o).2) ∧
      (errorShaped (generate_sfx env prompt duration o).1 ∧
        Event.generate ∉ (generate_sfx env prompt duration o).2)) := by
  refine ⟨?_, ?_, ?_⟩
  · rintro ⟨hd1, hd2, hp⟩
    constructor
    · have := musicRun_accept_trace env prompt duration model_size dedup o m
        henv hm hload hd1 hd2 hp
      simpa [generate_music] using this
    · have := sfxRun_accept_trace env prompt duration o m henv hload hd1 hd2 hp
      simpa [generate_sfx] using this
  · intro hdbad
    constructor
    · have hr := musicRun_durReject env prompt duration model_size dedup o m
        henv hm hload hdbad
      simp [generate_music, hr]
    · have hr := sfxRun_durReject env prompt duration o m henv hload hdbad
      simp [generate_sfx, hr]
  · intro hp
    constructor
    · rcases musicRun_reject env prompt duration model_size dedup o m henv hm
        hload (Or.inr (Or.inr hp)) with hr | hr
      · exact ⟨⟨durationErrMsg, by simp [generate_music, hr, errDict]⟩,
          by simp [generate_music, hr]⟩
      · exact ⟨⟨promptErrMsg, by simp [generate_music, hr, errDict]⟩,
          by simp [generate_music, hr]⟩
    · rcases sfxRun_reject env prompt duration o m henv hload
        (Or.inr (Or.inr hp)) with hr | hr
      · exact ⟨⟨durationErrMsg, by simp [generate_sfx, hr, errDict]⟩,
          by simp [generate_sfx, hr]⟩
      · exact ⟨⟨promptErrMsg, by simp [generate_sfx, hr, errDict]⟩,
          by simp [generate_sfx, hr]⟩

/-- Witness for C5 at concrete inputs: an accepted request, a rejected
duration 301, and a rejected whitespace-only prompt. -/
theorem c5_validation_boundaries_witness :
    (Event.generate ∈ (generate_music envOk "hello" 5 "large" none oracleOk).2 ∧
      Event.generate ∈ (generate_sfx envOk "hello" 5 oracleOk).2) ∧
    ((generate_music envOk "hello" 301 "large" none oracleOk).1 =
        errDict durationErrMsg ∧
      (generate_sfx envOk "hello" 301 oracleOk).1 = errDict durationErrMsg) ∧
    ((errorShaped (generate_music envOk "   " 5 "large" none oracleOk).1 ∧
        Event.generate ∉ (generate_music envOk "   " 5 "large" none oracleOk).2) ∧
      (errorShaped (generate_sfx envOk "   " 5 oracleOk).1 ∧
        Event.generate ∉ (generate_sfx envOk "   " 5 oracleOk).2)) :=
  ⟨(c5_validation_boundaries envOk "hello" 5 "large" none oracleOk ⟨32000⟩
      rfl (by decide) rfl).1 ⟨by decide, by decide, by decide⟩,
   (c5_validation_boundaries envOk "hello" 301 "large" none oracleOk ⟨32000⟩
      rfl (by decide) rfl).2.1 (by decide),
   (c5_validation_boundaries envOk "   " 5 "large" none oracleOk ⟨32000⟩
      rfl (by decide) rfl).2.2 (by decide)⟩

/-- Claim C6: for every `model_size` outside {"small","medium","large",
"melody"}, `generate_music` rejects with an error and never invokes the
model-load operation (its external-call trace is empty); with
credentials present the error is exactly the invalid-model-size
validation message. -/
theorem c6_invalid_model_size_no_load (env : Env) (prompt : String)
    (duration : Int) (model_size : String) (dedup : Option String)
    (o : Oracle)
    (hm : model_size ∉ validModels) :
    (generate_music env prompt duration model_size dedup o).2 = [] ∧
    Event.loadModel ∉ (generate_music env prompt duration model_size dedup o).2 ∧
    errorShaped (generate_music env prompt duration model_size dedup o).1 ∧
    (validateEnvironment env = true →
      (generate_music env prompt duration model_size dedup o).1 =
        errDict invalidModelMsg) := by
  by_cases henv : validateEnvironment env = true
  · have hrun : generateMusicRun env prompt duration model_size dedup o =
        (.ok (errDict invalidModelMsg), []) := by
      unfold generateMusicRun
      simp only [henv, Bool.not_eq_true, not_true_eq_false, reduceIte]
      rw [if_neg hm]
    refine ⟨by simp [generate_music, hrun], by simp [generate_music, hrun],
      ⟨invalidModelMsg, by simp [generate_music, hrun, errDict]⟩,
      fun _ => by simp [generate_music, hrun]⟩
  · have hrun : generateMusicRun env prompt duration model_size dedup o =
        (.ok (errDict envErrMsg), []) := by
      unfold generateMusicRun
      rw [if_pos (by simpa using henv)]
    refine ⟨by simp [generate_music, hrun], by simp [generate_music, hrun],
      ⟨envErrMsg, by simp [generate_music, hrun, errDict]⟩,
      fun h => absurd h henv⟩

/-- Witness for C6 at the invalid variant "huge". -/
theorem c6_invalid_model_size_no_load_witness :
    (generate_music envOk "hello" 5 "huge" none oracleOk).2 = [] ∧
    Event.loadModel ∉ (generate_music envOk "hello" 5 "huge" none oracleOk).2 ∧
    errorShaped (generate_music envOk "hello" 5 "huge" none oracleOk).1 ∧
    (validateEnvironment envOk = true →
      (generate_music envOk "hello" 5 "huge" none oracleOk).1 =
        errDict invalidModelMsg) :=
  c6_invalid_model_size_no_load envOk "hello" 5 "huge" none oracleOk
    (by decide)

/-- An oracle whose generation returns two-channel audio. -/
def oracleMulti : Oracle :=
  { oracleOk with generate := .ok (.multi [[1, 1], [0, 0]]) }

/-- Counterexample to claim C7 as stated: in the sound-effect family
(`generate_sfx`) a multi-channel model output is handed to the
WAV-encoding routine unchanged — the mono average is never handed
over.  (`modal_app.py` has no channel-averaging step.) -/
theorem c7_counterexample_sfx_no_mono :
    Event.audioWrite (RawAudio.multi [[1, 1], [0, 0]]) ∈
      (generate_sfx envOk "hello" 5 oracleMulti).2 ∧
    Event.audioWrite (toMono (RawAudio.multi [[1, 1], [0, 0]])) ∉
      (generate_sfx envOk "hello" 5 oracleMulti).2 := by
  constructor
  · decide
  · decide

/-- Claim C7 (amended): in the music and music-with-melody families a
multi-channel model output is averaged across channels to mono before
being handed to the WAV encoder; the sound-effect family hands the raw
multi-channel output to the encoder without any mono reduction. -/
theorem c7_amended_mono_conversion (env : Env)
    (prompt melody_path : String) (duration : Int) (model_size : String)
    (dedup : Option String) (o : Oracle) (m : Model)
    (chans : List (List ℚ))
    (henv : validateEnvironment env = true)
    (hm : model_size ∈ validModels)
    (hload : o.loadModel = .ok m)
    (hd1 : 1 ≤ duration) (hd2 : duration ≤ 300)
    (hp : pyStrip prompt ≠ "")
    (hmel : o.melodyLoad = .ok ())
    (hgen : o.generate = .ok (.multi chans)) :
    Event.audioWrite (RawAudio.mono (meanAxis0 chans)) ∈
      (generate_music env prompt duration model_size dedup o).2 ∧
    Event.audioWrite (RawAudio.mono (meanAxis0 chans)) ∈
      (generate_music_with_melody env prompt melody_path duration dedup o).2 ∧
    Event.audioWrite (RawAudio.multi chans) ∈
      (generate_sfx env prompt duration o).2 := by
  have hd : ¬ (duration < 1 ∨ duration > 300) := by omega
  refine ⟨?_, ?_, ?_⟩
  · unfold generate_music generateMusicRun
    simp only [henv, hm, hload, hgen, hd, hp, toMono, Bool.not_eq_true,
      not_true_eq_false, not_false_eq_true, reduceIte]
    repeat' split
    all_goals simp
  · unfold generate_music_with_melody generateMelodyRun
    simp only [henv, hload, hmel, hgen, hd, hp, toMono, Bool.not_eq_true,
      not_true_eq_false, not_false_eq_true, reduceIte]
    repeat' split
    all_goals simp
  · unfold generate_sfx generateSfxRun
    simp only [henv, hload, hgen, hd, hp, Bool.not_eq_true,
      not_true_eq_false, not_false_eq_true, reduceIte]
    repeat' split
    all_goals simp

/-- Witness for the amended C7 at a concrete two-channel output. -/
theorem c7_amended_mono_conversion_witness :
    Event.audioWrite (RawAudio.mono (meanAxis0 [[1, 1], [0, 0]])) ∈
      (generate_music envOk "hello" 5 "large" none oracleMulti).2 ∧
    Event.audioWrite (RawAudio.mono (meanAxis0 [[1, 1], [0, 0]])) ∈
      (generate_music_with_melody envOk "hello" "m.wav" 5 none oracleMulti).2 ∧
    Event.audioWrite (RawAudio.multi [[1, 1], [0, 0]]) ∈
      (generate_sfx envOk "hello" 5 oracleMulti).2 :=
  c7_amended_mono_conversion envOk "hello" "m.wav" 5 "large" none
    oracleMulti ⟨32000⟩ [[1, 1], [0, 0]] rfl (by decide) rfl (by decide)
    (by decide) (by decide) rfl rfl

/-- Claim C8: the endpoint requires `prompt`: a body lacking it gets an
immediate `{"success": false, "error": "prompt is required"}` without
invoking generation; a body with a (non-empty) prompt invokes
`generate_music` with `duration` defaulting to 30, `model_size`
defaulting to "large" and the deduplication id passed through
(defaulting to absent). -/
theorem c8_endpoint_prompt_required_and_defaults (env : Env)
    (req : Request) (remote : Except String Unit) (o : Oracle) :
    (req.prompt = none →
      generate_music_endpoint env req remote o =
        ([("success", Value.bool false),
          ("error", Value.str "prompt is required")], false)) ∧
    (∀ p, req.prompt = some p → p ≠ "" → remote = .ok () →
      generate_music_endpoint env req remote o =
        ((generate_music env p (req.duration.getD 30)
            (req.model_size.getD "large") req.message_deduplication_id o).1,
          true)) := by
  constructor
  · intro h
    simp [generate_music_endpoint, h, pyTruthy]
  · intro p hp hne hrem
    simp [generate_music_endpoint, hp, hrem, pyTruthy, hne]

/-- Witness for C8: a body without a prompt, and one with only a prompt. -/
theorem c8_endpoint_witness :
    generate_music_endpoint envOk ⟨none, none, none, none⟩ (.ok ()) oracleOk =
      ([("success", Value.bool false),
        ("error", Value.str "prompt is required")], false) ∧
    generate_music_endpoint envOk ⟨some "hello", none, none, none⟩ (.ok ())
        oracleOk =
      ((generate_music envOk "hello" 30 "large" none oracleOk).1, true) :=
  ⟨(c8_endpoint_prompt_required_and_defaults envOk ⟨none, none, none, none⟩
      (.ok ()) oracleOk).1 rfl,
   (c8_endpoint_prompt_required_and_defaults envOk
      ⟨some "hello", none, none, none⟩ (.ok ()) oracleOk).2 "hello" rfl
      (by decide) rfl⟩

/-- Claim C9: in every successful generation, `file_size_bytes` equals
the length of the byte sequence re-read from the encoded WAV file, and
`audio_base64` is exactly the base64 encoding of those same bytes —
whether or not the upload succeeded.  Holds for all three
generation functions. -/
theorem c9_file_size_matches_bytes (env : Env)
    (prompt melody_path : String) (duration : Int) (model_size : String)
    (dedup : Option String) (o : Oracle) (m : Model) (raw : RawAudio)
    (bytes : List Nat)
    (henv : validateEnvironment env = true)
    (hm : model_size ∈ validModels)
    (hload : o.loadModel = .ok m)
    (hd1 : 1 ≤ duration) (hd2 : duration ≤ 300)
    (hp : pyStrip prompt ≠ "")
    (hmel : o.melodyLoad = .ok ())
    (hgen : o.generate = .ok raw)
    (hw : o.audioWrite = .ok ())
    (hread : o.fileRead = .ok bytes) :
    ((generate_music env prompt duration model_size dedup o).1.lookup
        "file_size_bytes" = some (Value.int bytes.length) ∧
      (generate_music env prompt duration model_size dedup o).1.lookup
        "audio_base64" = some (Value.str (base64Encode bytes))) ∧
    ((generate_sfx env prompt duration o).1.lookup "file_size_bytes" =
        some (Value.int bytes.length) ∧
      (generate_sfx env prompt duration o).1.lookup "audio_base64" =
        some (Value.str (base64Encode bytes))) ∧
    ((generate_music_with_melody env prompt melody_path duration dedup
          o).1.lookup "file_size_bytes" = some (Value.int bytes.length) ∧
      (generate_music_with_melody env prompt melody_path duration dedup
          o).1.lookup "audio_base64" =
        some (Value.str (base64Encode bytes))) := by
  have hd : ¬ (duration < 1 ∨ duration > 300) := by omega
  refine ⟨?_, ?_, ?_⟩
  · cases hs : o.s3Upload with
    | ok u =>
        unfold generate_music generateMusicRun
        simp only [henv, hm, hload, hgen, hw, hread, hs, hd, hp,
          Bool.not_eq_true, not_true_eq_false, not_false_eq_true, reduceIte]
        exact ⟨rfl, rfl⟩
    | error e =>
        unfold generate_music generateMusicRun
        simp only [henv, hm, hload, hgen, hw, hread, hs, hd, hp,
          Bool.not_eq_true, not_true_eq_false, not_false_eq_true, reduceIte]
        exact ⟨rfl, rfl⟩
  · cases hs : o.s3Upload with
    | ok u =>
        unfold generate_sfx generateSfxRun
        simp only [henv, hload, hgen, hw, hread, hs, hd, hp,
          Bool.not_eq_true, not_true_eq_false, not_false_eq_true, reduceIte]
        exact ⟨rfl, rfl⟩
    | error e =>
        unfold generate_sfx generateSfxRun
        simp only [henv, hload, hgen, hw, hread, hs, hd, hp,
          Bool.not_eq_true, not_true_eq_false, not_false_eq_true, reduceIte]
        exact ⟨rfl, rfl⟩
  · cases hs : o.s3Upload with
    | ok u =>
        unfold generate_music_with_melody generateMelodyRun
        simp only [henv, hload, hmel, hgen, hw, hread, hs, hd, hp,
          Bool.not_eq_true, not_true_eq_false, not_false_eq_true, reduceIte]
        exact ⟨rfl, rfl⟩
    | error e =>
        unfold generate_music_with_melody generateMelodyRun
        simp only [henv, hload, hmel, hgen, hw, hread, hs, hd, hp,
          Bool.not_eq_true, not_true_eq_false, not_false_eq_true, reduceIte]
        exact ⟨rfl, rfl⟩

/-- Witness for C9 at a concrete input. -/
theorem c9_file_size_matches_bytes_witness :
    ((generate_music envOk "hello" 5 "large" none oracleOk).1.lookup
        "file_size_bytes" = some (Value.int (4 : Int)) ∧
      (generate_music envOk "hello" 5 "large" none oracleOk).1.lookup
        "audio_base64" =
        some (Value.str (base64Encode [82, 73, 70, 70]))) ∧
    ((generate_sfx envOk "hello" 5 oracleOk).1.lookup "file_size_bytes" =
        some (Value.int (4 : Int)) ∧
      (generate_sfx envOk "hello" 5 oracleOk).1.lookup "audio_base64" =
        some (Value.str (base64Encode [82, 73, 70, 70]))) ∧
    ((generate_music_with_melody envOk "hello" "m.wav" 5 none
          oracleOk).1.lookup "file_size_bytes" = some (Value.int (4 : Int)) ∧
      (generate_music_with_melody envOk "hello" "m.wav" 5 none
          oracleOk).1.lookup "audio_base64" =
        some (Value.str (base64Encode [82, 73, 70, 70]))) :=
  c9_file_size_matches_bytes envOk "hello" "m.wav" 5 "large" none oracleOk
    ⟨32000⟩ (.mono [1]) [82, 73, 70, 70] rfl (by decide) rfl (by decide)
    (by decide) (by decide) rfl rfl rfl rfl

/-- Consequences of the core shape: an `"error"` key pins the whole
dict (no `"success"` key), and its absence pins `"success": True`. -/
theorem coreShape_props (r : ResultDict) (h : coreShape r) :
    (∀ v, r.lookup "error" = some v →
      r = [("error", v)] ∧ r.lookup "success" = none) ∧
    (r.lookup "error" = none →
      r.lookup "success" = some (Value.bool true)) := by
  rcases h with ⟨e, he⟩ | ⟨hs, hn⟩
  · subst he
    refine ⟨?_, ?_⟩
    · intro v hv
      have hv' : some (Value.str e) = some v := hv
      injection hv' with hv2
      exact ⟨by rw [hv2], rfl⟩
    · intro hnone
      exact Option.noConfusion hnone
  · refine ⟨?_, fun _ => hs⟩
    intro v hv
    rw [hn] at hv
    exact Option.noConfusion hv

/-- An environment with all required credentials absent. -/
def envBad : Env := ⟨none, none, none⟩

/-- Claim C10: every failure produced inside the core generation
functions is a dict with only an `"error"` key and no `"success"` key,
while every success carries `"success": True` — presence of the
`"success"` key distinguishes the outcomes; failures produced by the
HTTP endpoint wrapper itself instead carry an explicit
`"success": False` next to `"error"`, a different error shape. -/
theorem c10_two_layer_error_shapes (env : Env)
    (prompt melody_path : String) (duration : Int) (model_size : String)
    (dedup : Option String) (o : Oracle) (req : Request)
    (remote : Except String Unit) :
    (∀ v, (generate_music env prompt duration model_size dedup o).1.lookup
        "error" = some v →
      (generate_music env prompt duration model_size dedup o).1 =
          [("error", v)] ∧
        (generate_music env prompt duration model_size dedup o).1.lookup
          "success" = none) ∧
    ((generate_music env prompt duration model_size dedup o).1.lookup
        "error" = none →
      (generate_music env prompt duration model_size dedup o).1.lookup
        "success" = some (Value.bool true)) ∧
    (∀ v, (generate_sfx env prompt duration o).1.lookup "error" = some v →
      (generate_sfx env prompt duration o).1 = [("error", v)] ∧
        (generate_sfx env prompt duration o).1.lookup "success" = none) ∧
    ((generate_sfx env prompt duration o).1.lookup "error" = none →
      (generate_sfx env prompt duration o).1.lookup "success" =
        some (Value.bool true)) ∧
    (∀ v, (generate_music_with_melody env prompt melody_path duration dedup
        o).1.lookup "error" = some v →
      (generate_music_with_melody env prompt melody_path duration dedup
          o).1 = [("error", v)] ∧
        (generate_music_with_melody env prompt melody_path duration dedup
          o).1.lookup "success" = none) ∧
    ((generate_music_with_melody env prompt melody_path duration dedup
        o).1.lookup "error" = none →
      (generate_music_with_melody env prompt melody_path duration dedup
        o).1.lookup "success" = some (Value.bool true)) ∧
    (req.prompt = none →
      generate_music_endpoint env req remote o =
        ([("success", Value.bool false),
          ("error", Value.str "prompt is required")], false)) ∧
    (∀ p e, req.prompt = some p → p ≠ "" → remote = .error e →
      generate_music_endpoint env req remote o =
        ([("success", Value.bool false), ("error", Value.str e)], true)) := by
  obtain ⟨f1, g1⟩ :=
    coreShape_props _ (music_coreShape env prompt duration model_size dedup o)
  obtain ⟨f2, g2⟩ := coreShape_props _ (sfx_coreShape env prompt duration o)
  obtain ⟨f3, g3⟩ :=
    coreShape_props _
      (melody_coreShape env prompt melody_path duration dedup o)
  refine ⟨f1, g1, f2, g2, f3, g3, ?_, ?_⟩
  · intro h
    simp [generate_music_endpoint, h, pyTruthy]
  · intro p e hp hne hrem
    simp [generate_music_endpoint, hp, hrem, pyTruthy, hne]

/-- Witness for C10: a concrete core failure (missing credentials), a
concrete core success, and both endpoint-wrapper failure shapes. -/
theorem c10_two_layer_error_shapes_witness :
    ((generate_music envBad "hello" 5 "large" none oracleOk).1 =
        [("error", Value.str envErrMsg)] ∧
      (generate_music envBad "hello" 5 "large" none oracleOk).1.lookup
        "success" = none) ∧
    ((generate_music envOk "hello" 5 "large" none oracleOk).1.lookup
        "success" = some (Value.bool true)) ∧
    (generate_music_endpoint envOk ⟨none, none, none, none⟩ (.ok ())
        oracleOk =
      ([("success", Value.bool false),
        ("error", Value.str "prompt is required")], false)) ∧
    (generate_music_endpoint envOk ⟨some "hello", none, none, none⟩
        (.error "service down") oracleOk =
      ([("success", Value.bool false), ("error", Value.str "service down")],
        true)) :=
  ⟨(c10_two_layer_error_shapes envBad "hello" "m.wav" 5 "large" none
      oracleOk ⟨none, none, none, none⟩ (.ok ())).1 (Value.str envErrMsg)
      rfl,
   (c10_two_layer_error_shapes envOk "hello" "m.wav" 5 "large" none
      oracleOk ⟨none, none, none, none⟩ (.ok ())).2.1 rfl,
   (c10_two_layer_error_shapes envOk "hello" "m.wav" 5 "large" none
      oracleOk ⟨none, none, none, none⟩ (.ok ())).2.2.2.2.2.2.1 rfl,
   (c10_two_layer_error_shapes envOk "hello" "m.wav" 5 "large" none
      oracleOk ⟨some "hello", none, none, none⟩
      (.error "service down")).2.2.2.2.2.2.2 "hello" "service down" rfl
      (by decide) rfl⟩
